import Mathlib

/-!
Verification of the core suggestion/selection/execution loop of the
ricklamers/ai-shell repository (src/shell_ai/main.py), as a shallow
embedding in Lean 4.  Pure helpers of the source are translated into
Lean functions; the interactive loop body (lines 170-227 of main.py)
becomes a pure step function over an explicit state, with every
external wait (LLM call, menu selection, confirmation text, free-text
prompt, subprocess execution, directory change) supplied as an event
that either yields a value or raises an exception.  Python exception
semantics are modelled faithfully: KeyboardInterrupt and SystemExit
are not subclasses of Exception, so an `except Exception` clause does
not catch them.
-/

namespace ShellAI

/-- Python str.split with an explicit one-character separator, acting on
the character list: empty pieces are kept and the empty string yields one
empty piece, exactly as in Python.  Models the expression
user_command.split(" ") from line 215 of src/shell_ai/main.py. -/
def py_split_chars (sep : Char) : List Char → List (List Char)
  | [] => [[]]
  | c :: rest =>
    match py_split_chars sep rest with
    | [] => [[c]]
    | h :: t => if c = sep then [] :: h :: t else (c :: h) :: t

/-- Python s.split(" ") on strings. -/
def py_split_space (s : String) : List String :=
  (py_split_chars ' ' s.data).map String.mk

/-- Python sep.join(xs). -/
def py_join (sep : String) : List String → String
  | [] => ""
  | [x] => x
  | x :: y :: rest => x ++ sep ++ py_join sep (y :: rest)

/-- Python s.startswith(p) for a single string argument: p is a prefix
of s.  Used at lines 212 and 214 of src/shell_ai/main.py. -/
def py_startswith (s p : String) : Bool :=
  p.data.isPrefixOf s.data

/-- Python s.startswith(tuple): true when some element of the list is a
prefix of s.  Used at line 212 of src/shell_ai/main.py. -/
def py_startswith_any (s : String) (ps : List String) : Bool :=
  ps.any (fun p => py_startswith s p)

/-- The TEXT_EDITORS tuple of line 67 of src/shell_ai/main.py. -/
def TEXT_EDITORS : List String :=
  ["vi", "vim", "emacs", "nano", "ed", "micro", "joe", "nvim"]

/-- Modelled from the spec: os.path.expanduser is a Python
standard-library collaborator (not code of this repository).  A leading
tilde, alone or followed by a slash, is replaced by the home directory;
other strings are returned unchanged.  Forms like a tilde followed by a
user name are not modelled (they are never exercised in this
development). -/
def expanduser (home p : String) : String :=
  if p = "~" then home
  else if py_startswith p "~/" then home ++ String.mk (p.data.drop 1)
  else p

/-- The path handed to os.chdir at lines 215-216 of src/shell_ai/main.py:
os.path.expanduser applied to the slash-join of the space-split words of
the command after the first word. -/
def cd_target (home cmd : String) : String :=
  expanduser home (py_join "/" ((py_split_space cmd).drop 1))

/-- Value of SelectSystemOptions.OPT_GEN_SUGGESTIONS (line 20 of
src/shell_ai/main.py). -/
def OPT_GEN_SUGGESTIONS : String := "Generate new suggestions"

/-- Value of SelectSystemOptions.OPT_DISMISS (line 21 of
src/shell_ai/main.py). -/
def OPT_DISMISS : String := "Dismiss"

/-- Value of SelectSystemOptions.OPT_NEW_COMMAND (line 22 of
src/shell_ai/main.py). -/
def OPT_NEW_COMMAND : String := "Enter a new command"

/-- The command-extraction loop of get_suggestions (lines 149-159 of
src/shell_ai/main.py).  The decode argument abstracts the composite
step json.loads(code_parser(msg)).get("command", "") applied to one
message text: some cmd models a successful decode whose command member
is cmd (the empty string when the member is absent), none models
json.JSONDecodeError.  On success the command is appended only when it
is nonempty (the Python truthiness test of line 155); on decode failure
the raw message text is appended unconditionally (line 159). -/
def collect_commands (decode : String → Option String) : List String → List String
  | [] => []
  | msg :: rest =>
    match decode msg with
    | some cmd => (if cmd = "" then [] else [cmd]) ++ collect_commands decode rest
    | none => msg :: collect_commands decode rest

/-- get_suggestions (lines 135-164 of src/shell_ai/main.py) restricted
to its pure command-extraction part: the LLM response is supplied as the
list of generated message texts.  The Python dedup step
list(set(commands)) returns the distinct elements in an unspecified
order; it is modelled with List.dedup, one concrete distinct-elements
representative.  Every property proved about the result below is
invariant under reordering, so the choice of representative does not
matter. -/
def get_suggestions (decode : String → Option String) (msgs : List String) : List String :=
  (collect_commands decode msgs).dedup

/-- Lines 171-174 of src/shell_ai/main.py: the menu option list for one
generation round is the suggestion list with the three control values
appended, in source order OPT_GEN_SUGGESTIONS, OPT_NEW_COMMAND,
OPT_DISMISS.  (Line 183 wraps the displayed name of each option to the
terminal width, display only; the underlying values are these
strings.) -/
def options_for_round (suggestions : List String) : List String :=
  suggestions ++ [OPT_GEN_SUGGESTIONS, OPT_NEW_COMMAND, OPT_DISMISS]

/-- Modelled from the spec: a concrete instance of the decode oracle,
the composite of code_parser (module shell_ai.code_parser, whose file is
not under src/; per spec section 4.1 it returns the inner content of the
first fenced block when one is present and the original text unchanged
otherwise) and the Python standard-library json.loads followed by
.get("command", "").  This model decodes exactly the texts of the shape
open-brace, "command", colon, space, quoted plain string, close-brace,
and fails on everything else.  It is faithful on every input it is
applied to in this development: the empty string and bare words such as
"Dismiss" contain no fenced block, are returned unchanged by
code_parser, and are not valid JSON, so the real composite raises
json.JSONDecodeError on them exactly as this model returns none. -/
def model_decode (s : String) : Option String :=
  let pre := "\x7b\"command\": \"".data
  let suf := "\"\x7d".data
  if pre.isPrefixOf s.data && suf.isSuffixOf s.data
      && decide (pre.length + suf.length ≤ s.data.length) then
    let mid := (s.data.drop pre.length).take (s.data.length - pre.length - suf.length)
    if mid.any (fun ch => ch == '"' || ch == '\\') then none
    else some (String.mk mid)
  else none

/-- Commands of messages that fail to decode are collected verbatim. -/
theorem mem_collect_of_decode_none (decode : String → Option String)
    (msgs : List String) (msg : String) (hm : msg ∈ msgs)
    (hd : decode msg = none) :
    msg ∈ collect_commands decode msgs := by
  induction msgs with
  | nil => cases hm
  | cons m rest ih =>
    rcases List.mem_cons.mp hm with h | h
    · subst h
      simp [collect_commands, hd]
    · cases hdm : decode m with
      | some cmd => simp [collect_commands, hdm, ih h]
      | none => simp [collect_commands, hdm, ih h]

/-- Every element collected is either a nonempty command of a decoded
message, or the raw text of a message that failed to decode. -/
theorem collect_elem_cases (decode : String → Option String)
    (msgs : List String) (c : String)
    (hc : c ∈ collect_commands decode msgs) :
    (∃ msg ∈ msgs, decode msg = some c ∧ c ≠ "") ∨
    (∃ msg ∈ msgs, decode msg = none ∧ c = msg) := by
  induction msgs with
  | nil => cases hc
  | cons m rest ih =>
    cases hdm : decode m with
    | some cmd =>
      simp only [collect_commands, hdm] at hc
      by_cases hemp : cmd = ""
      · rw [if_pos hemp] at hc
        rcases ih hc with ⟨msg, hmsg, h1, h2⟩ | ⟨msg, hmsg, h1, h2⟩
        · exact Or.inl ⟨msg, List.mem_cons_of_mem m hmsg, h1, h2⟩
        · exact Or.inr ⟨msg, List.mem_cons_of_mem m hmsg, h1, h2⟩
      · rw [if_neg hemp] at hc
        rcases List.mem_cons.mp hc with h | h
        · exact Or.inl ⟨m, List.mem_cons_self m rest, by rw [hdm, h], by rw [h]; exact hemp⟩
        · rcases ih h with ⟨msg, hmsg, h1, h2⟩ | ⟨msg, hmsg, h1, h2⟩
          · exact Or.inl ⟨msg, List.mem_cons_of_mem m hmsg, h1, h2⟩
          · exact Or.inr ⟨msg, List.mem_cons_of_mem m hmsg, h1, h2⟩
    | none =>
      simp only [collect_commands, hdm] at hc
      rcases List.mem_cons.mp hc with h | h
      · exact Or.inr ⟨m, List.mem_cons_self m rest, hdm, h⟩
      · rcases ih h with ⟨msg, hmsg, h1, h2⟩ | ⟨msg, hmsg, h1, h2⟩
        · exact Or.inl ⟨msg, List.mem_cons_of_mem m hmsg, h1, h2⟩
        · exact Or.inr ⟨msg, List.mem_cons_of_mem m hmsg, h1, h2⟩

/-- C5.  For every model message whose extracted text fails JSON
decoding, get_suggestions keeps the entire original raw message text as
a candidate command: the message text is a member of the returned list,
and extraction is a total function, so no parse error aborts the
round. -/
theorem raw_fallback_kept (decode : String → Option String)
    (msgs : List String) (msg : String)
    (hm : msg ∈ msgs) (hd : decode msg = none) :
    msg ∈ get_suggestions decode msgs := by
  unfold get_suggestions
  exact List.mem_dedup.mpr (mem_collect_of_decode_none decode msgs msg hm hd)

/-- Witness for raw_fallback_kept: the message "Dismiss" is not valid
JSON, decoding fails, and the raw text is returned as the candidate. -/
theorem raw_fallback_kept_witness :
    "Dismiss" ∈ get_suggestions model_decode ["Dismiss"] :=
  raw_fallback_kept model_decode ["Dismiss"] "Dismiss" (by decide) (by decide)

/-- C2 (amended).  For every generation round, the returned command
list contains no duplicate strings, and the only way an empty string
can appear in it is as the raw-fallback text of a message that is
itself the empty string and fails to decode; commands extracted from
successfully decoded messages are never empty. -/
theorem suggestions_nodup_empty_only_fallback
    (decode : String → Option String) (msgs : List String) :
    (get_suggestions decode msgs).Nodup ∧
    (∀ c ∈ get_suggestions decode msgs, c = "" → c ∈ msgs ∧ decode c = none) := by
  constructor
  · exact List.nodup_dedup _
  · intro c hc hemp
    have hmem : c ∈ collect_commands decode msgs := List.mem_dedup.mp hc
    rcases collect_elem_cases decode msgs c hmem with ⟨msg, hmsg, _, hne⟩ | ⟨msg, hmsg, hnone, hcm⟩
    · exact absurd hemp hne
    · subst hcm
      exact ⟨hmsg, hnone⟩

/-- Witness for suggestions_nodup_empty_only_fallback at a concrete
round: one empty message that fails to decode. -/
theorem suggestions_nodup_empty_only_fallback_witness :
    (get_suggestions model_decode [""]).Nodup ∧
    ("" ∈ [""] ∧ model_decode "" = none) :=
  ⟨(suggestions_nodup_empty_only_fallback model_decode [""]).1,
   (suggestions_nodup_empty_only_fallback model_decode [""]).2 "" (by decide) rfl⟩

/-- C2 (counterexample).  The claim that the returned command list
never contains an empty string is false: a round whose single message
is the empty string fails to decode (the empty string is not valid
JSON), the raw-fallback branch of line 159 appends it without the
nonemptiness test of line 155, and the returned list is exactly [""]. -/
theorem suggestions_empty_string_possible :
    get_suggestions model_decode [""] = [""] ∧
    "" ∈ get_suggestions model_decode [""] := by
  constructor
  · decide
  · decide

/-- C1 (amended).  For every generation round, the option list handed
to the interactive selector is the deduplicated suggestion list with
the three control sentinels appended once, in the fixed source order
Regenerate, EnterNewCommand, Dismiss: the list always ends with exactly
those three values, its length is the suggestion count plus three, and
each sentinel occurs exactly once in the whole list provided no
suggestion string equals that sentinel (a raw-fallback suggestion equal
to a sentinel makes the string occur twice). -/
theorem control_options_appended (decode : String → Option String) (msgs : List String) :
    options_for_round (get_suggestions decode msgs) =
      get_suggestions decode msgs ++ [OPT_GEN_SUGGESTIONS, OPT_NEW_COMMAND, OPT_DISMISS] ∧
    (options_for_round (get_suggestions decode msgs)).drop (get_suggestions decode msgs).length =
      [OPT_GEN_SUGGESTIONS, OPT_NEW_COMMAND, OPT_DISMISS] ∧
    (options_for_round (get_suggestions decode msgs)).length =
      (get_suggestions decode msgs).length + 3 ∧
    (OPT_GEN_SUGGESTIONS ∉ get_suggestions decode msgs →
      (options_for_round (get_suggestions decode msgs)).count OPT_GEN_SUGGESTIONS = 1) ∧
    (OPT_NEW_COMMAND ∉ get_suggestions decode msgs →
      (options_for_round (get_suggestions decode msgs)).count OPT_NEW_COMMAND = 1) ∧
    (OPT_DISMISS ∉ get_suggestions decode msgs →
      (options_for_round (get_suggestions decode msgs)).count OPT_DISMISS = 1) := by
  refine ⟨rfl, ?_, ?_, ?_, ?_, ?_⟩
  · unfold options_for_round
    exact List.drop_left _ _
  · unfold options_for_round
    simp
  · intro h
    unfold options_for_round
    rw [List.count_append, List.count_eq_zero.mpr h]
    decide
  · intro h
    unfold options_for_round
    rw [List.count_append, List.count_eq_zero.mpr h]
    decide
  · intro h
    unfold options_for_round
    rw [List.count_append, List.count_eq_zero.mpr h]
    decide

/-- Witness for control_options_appended at the empty round: zero
suggestions, so the menu is exactly the three sentinels and each occurs
once. -/
theorem control_options_appended_witness :
    (options_for_round (get_suggestions model_decode [])).drop
      (get_suggestions model_decode []).length =
      [OPT_GEN_SUGGESTIONS, OPT_NEW_COMMAND, OPT_DISMISS] ∧
    (options_for_round (get_suggestions model_decode [])).count OPT_DISMISS = 1 :=
  ⟨(control_options_appended model_decode []).2.1,
   (control_options_appended model_decode []).2.2.2.2.2 (by decide)⟩

/-- C1 (counterexample).  The claim that each control sentinel is
present exactly once in the option list is false: a round whose single
message text is the literal word "Dismiss" fails JSON decoding, the
raw-fallback branch keeps "Dismiss" as a suggestion, and the string
"Dismiss" then occurs twice in the option list handed to the
selector. -/
theorem control_option_present_twice :
    options_for_round (get_suggestions model_decode ["Dismiss"]) =
      ["Dismiss", OPT_GEN_SUGGESTIONS, OPT_NEW_COMMAND, OPT_DISMISS] ∧
    (options_for_round (get_suggestions model_decode ["Dismiss"])).count OPT_DISMISS = 2 := by
  constructor
  · decide
  · decide

/-- Python exceptions as they matter to the loop of main (lines
170-227).  keyboardInterrupt models KeyboardInterrupt and sysExit
models SystemExit (the exception raised by sys.exit): both derive from
BaseException, not from Exception, so the `except Exception` clause of
line 223 catches neither.  error models every Exception subclass the
loop can see (json errors never escape get_suggestions;
subprocess.CalledProcessError, OSError, EOFError and the like are all
Exception subclasses), carrying its rendered message str(e). -/
inductive Exc where
  | keyboardInterrupt : Exc
  | sysExit : Nat → Exc
  | error : String → Exc
deriving DecidableEq

/-- The prompt variable of main: a string after " ".join (line 80) or
any input() call (lines 197 and 222), but the raw argparse list when
the --ctx flag is given (line 76 assigns args.prompt, a Python list,
without joining it). -/
inductive PromptVal where
  | str : String → PromptVal
  | list : List String → PromptVal
deriving DecidableEq

/-- Lines 69-80 of src/shell_ai/main.py.  The first component is the
prompt value, the second the CTX mode string.  argparse is a Python
standard-library collaborator; it is modelled for command lines in
which the optional --ctx flag, when present, is the first argument
after the program name and no other argument begins with a dash: then
args.ctx is true exactly when the flag is present and args.prompt is
the list of remaining arguments.  With the flag, line 76 assigns that
list to prompt unjoined and line 77 forces CTX to "True"; without it,
line 80 joins every argument after the program name with spaces and
CTX keeps the environment value read at line 69. -/
def parse_invocation (envCTX : String) (argv : List String) : PromptVal × String :=
  match argv with
  | "--ctx" :: rest => (PromptVal.list rest, "True")
  | _ => (PromptVal.str (py_join " " argv), envCTX)

/-- The mutable state the loop body threads between iterations: the
current prompt and the chunks handed to ContextManager.add_chunk so
far.  ContextManager lives in shell_ai.code_parser, whose file is not
under src/; recording the exact sequence of add_chunk calls is
independent of its internal truncation policy, which no claim below
depends on. -/
structure LoopState where
  prompt : PromptVal
  ctx_chunks : List String
deriving DecidableEq

/-- The configuration the loop body reads: the CTX mode string (line
69 or 77), the SHAI_SKIP_CONFIRM environment value as read at line
201, and the home directory used by os.path.expanduser. -/
structure LoopConfig where
  CTX : String
  SHAI_SKIP_CONFIRM : Option String
  home : String
deriving DecidableEq

/-- One iteration of the while loop consumes up to one result from each
external wait point; each is supplied as an Except value, where
Except.error e models that wait raising exception e (for interactive
waits, Exc.keyboardInterrupt models the user pressing Ctrl-C there).
llm is the get_suggestions call of line 171 (its message texts already
extracted into suggestion strings); select is inquirer.select (lines
189-191); new_command is input("New command: ") (line 197); confirm is
inquirer.text (lines 202-204); exec_plain is the uncaptured
subprocess.run of lines 209 and 213; exec_captured is the capturing
subprocess.run of line 218, yielding the decoded stdout text;
chdir_res is os.chdir (line 216); next_prompt is the input call of
line 222. -/
structure RoundEvents where
  llm : Except Exc (List String)
  select : Except Exc String
  new_command : Except Exc String
  confirm : Except Exc String
  exec_plain : Except Exc Unit
  exec_captured : Except Exc String
  chdir_res : Except Exc Unit
  next_prompt : Except Exc String

/-- Observable side effects of one iteration, in order: an uncaptured
shell execution, a capturing shell execution, or a local directory
change with the path handed to os.chdir. -/
inductive Action where
  | runShell : String → Action
  | runShellCaptured : String → Action
  | chdirTo : String → Action
deriving DecidableEq

/-- Result of running the body inside the outer try of line 188:
continue the while loop with a new state, break out of it (line 210),
or an exception escaping to the except clauses, together with the
state at the moment it was raised. -/
inductive InnerRes where
  | next : LoopState → InnerRes
  | brk : InnerRes
  | exc : Exc → LoopState → InnerRes
deriving DecidableEq

/-- How one whole iteration ends at process level: continue the while
loop, break out of it (after which main returns and the process exits
with status 0), exit the process with the given status (SystemExit
reaching the top level), or die on an exception that nothing in main
catches (for KeyboardInterrupt the Python runtime then prints a
traceback and exits with a nonzero status). -/
inductive IterResult where
  | next : LoopState → IterResult
  | brk : IterResult
  | halt : Nat → IterResult
  | uncaught : Exc → IterResult
deriving DecidableEq

/-- Everything observable about one iteration: the lines printed, the
execution actions performed, and how the iteration ended. -/
structure IterOut where
  prints : List String
  actions : List Action
  result : IterResult
deriving DecidableEq

/-- Lines 201-206: unless the SHAI_SKIP_CONFIRM environment value is
the string "true", the command comes from the confirmation text box
(pre-filled with the selection, freely editable, so an arbitrary
string); otherwise the selection is used as is. -/
def resolved_command (cfg : LoopConfig) (ev : RoundEvents) (selection : String) :
    Except Exc String :=
  if cfg.SHAI_SKIP_CONFIRM ≠ some "true" then ev.confirm else Except.ok selection

/-- The warning line printed by the except clause of lines 223-224:
f-string over Colors.WARNING, Colors.END and str(e). -/
def warn_line (m : String) : String :=
  "\x1b[93mError\x1b[0m executing command: " ++ m

/-- Line 222: after a context-mode execution branch, read the next
free-text prompt and loop with it. -/
def read_next_prompt (st : LoopState) (ev : RoundEvents)
    (pr : List String) (acts : List Action) :
    List String × List Action × InnerRes :=
  match ev.next_prompt with
  | Except.error e => (pr, acts, InnerRes.exc e st)
  | Except.ok p => (pr, acts, InnerRes.next { st with prompt := PromptVal.str p })

/-- The body of the inner try of lines 193-222, given the selection
returned by the menu.  The sentinel comparisons follow the source
order (Dismiss, EnterNewCommand, Regenerate); sys.exit(0) at line 195
raises SystemExit 0; `continue` at lines 198 and 200 is the
InnerRes.next of the (possibly updated) state.  The execution
branching of lines 207-221 follows the source: default mode runs the
command uncaptured and breaks, context mode checks the TEXT_EDITORS
prefixes, then the "cd" prefix, then runs capturing stdout, printing
it when nonempty (preceded by a blank line, line 220) and handing it
to ContextManager.add_chunk unconditionally (line 221). -/
def inner_try_body (cfg : LoopConfig) (st : LoopState) (ev : RoundEvents)
    (selection : String) : List String × List Action × InnerRes :=
  if selection = OPT_DISMISS then ([], [], InnerRes.exc (Exc.sysExit 0) st)
  else if selection = OPT_NEW_COMMAND then
    match ev.new_command with
    | Except.error e => ([], [], InnerRes.exc e st)
    | Except.ok p => ([], [], InnerRes.next { st with prompt := PromptVal.str p })
  else if selection = OPT_GEN_SUGGESTIONS then ([], [], InnerRes.next st)
  else
    match resolved_command cfg ev selection with
    | Except.error e => ([], [], InnerRes.exc e st)
    | Except.ok user_command =>
      if cfg.CTX = "False" then
        match ev.exec_plain with
        | Except.error e => ([], [Action.runShell user_command], InnerRes.exc e st)
        | Except.ok _ => ([], [Action.runShell user_command], InnerRes.brk)
      else if py_startswith_any user_command TEXT_EDITORS then
        match ev.exec_plain with
        | Except.error e => ([], [Action.runShell user_command], InnerRes.exc e st)
        | Except.ok _ => read_next_prompt st ev [] [Action.runShell user_command]
      else if py_startswith user_command "cd" then
        match ev.chdir_res with
        | Except.error e =>
          ([], [Action.chdirTo (cd_target cfg.home user_command)], InnerRes.exc e st)
        | Except.ok _ =>
          read_next_prompt st ev [] [Action.chdirTo (cd_target cfg.home user_command)]
      else
        match ev.exec_captured with
        | Except.error e =>
          ([], [Action.runShellCaptured user_command], InnerRes.exc e st)
        | Except.ok out =>
          read_next_prompt { st with ctx_chunks := st.ctx_chunks ++ [out] } ev
            (if 0 < out.length then ["\n" ++ out] else [])
            [Action.runShellCaptured user_command]

/-- The body of the outer try of lines 188-224: the menu selection of
lines 189-191 (raising outside the inner try), then the inner try with
its `except Exception` clause, which catches exactly Exc.error,
prints the warning line, and lets the while loop continue with the
state as it was when the exception was raised (the prompt variable is
unchanged: the except clause reads no new prompt). -/
def outer_try_body (cfg : LoopConfig) (st : LoopState) (ev : RoundEvents) :
    List String × List Action × InnerRes :=
  match ev.select with
  | Except.error e => ([], [], InnerRes.exc e st)
  | Except.ok selection =>
    match inner_try_body cfg st ev selection with
    | (pr, acts, InnerRes.exc (Exc.error m) stE) =>
      (pr ++ [warn_line m], acts, InnerRes.next stE)
    | r => r

/-- One iteration of the while loop of lines 170-227 of
src/shell_ai/main.py.  The get_suggestions call of line 171 happens
before the try statement of line 188, so an exception raised while
waiting for the LLM response escapes main uncaught.  Around the outer
try body, the `except KeyboardInterrupt` clause of lines 225-227
prints the exit notice and raises SystemExit 0; SystemExit reaching
the top level exits the process with its status; any other exception
escaping both clauses leaves main uncaught.  (The terminal-width query
of line 177 and the display-only wrapping of lines 181-187 have no
observable effect on the option values and are not modelled.) -/
def loop_iteration (cfg : LoopConfig) (st : LoopState) (ev : RoundEvents) : IterOut :=
  match ev.llm with
  | Except.error e => ⟨[], [], IterResult.uncaught e⟩
  | Except.ok _ =>
    match outer_try_body cfg st ev with
    | (pr, acts, InnerRes.next st2) => ⟨pr, acts, IterResult.next st2⟩
    | (pr, acts, InnerRes.brk) => ⟨pr, acts, IterResult.brk⟩
    | (pr, acts, InnerRes.exc Exc.keyboardInterrupt _) =>
      ⟨pr ++ ["Exiting..."], acts, IterResult.halt 0⟩
    | (pr, acts, InnerRes.exc (Exc.sysExit n) _) => ⟨pr, acts, IterResult.halt n⟩
    | (pr, acts, InnerRes.exc (Exc.error m) _) =>
      ⟨pr, acts, IterResult.uncaught (Exc.error m)⟩

/-- C6.  Whatever the mode and whichever execution branch runs, a
shell-command execution failure (subprocess.CalledProcessError on a
nonzero exit, OSError on a failure to launch, or the os.chdir failure
of the cd branch) raised with message m is caught by the except clause
of line 223: the iteration prints the warning line containing m and
the while loop continues with the state unchanged — it neither breaks
nor exits nor crashes. -/
theorem shell_error_reported (cfg : LoopConfig) (st : LoopState) (ev : RoundEvents)
    (sugg : List String) (sel ucmd m : String)
    (hllm : ev.llm = Except.ok sugg)
    (hsel : ev.select = Except.ok sel)
    (h1 : sel ≠ OPT_DISMISS) (h2 : sel ≠ OPT_NEW_COMMAND) (h3 : sel ≠ OPT_GEN_SUGGESTIONS)
    (hconf : resolved_command cfg ev sel = Except.ok ucmd)
    (hp : ev.exec_plain = Except.error (Exc.error m))
    (hc : ev.exec_captured = Except.error (Exc.error m))
    (hch : ev.chdir_res = Except.error (Exc.error m)) :
    (loop_iteration cfg st ev).result = IterResult.next st ∧
    warn_line m ∈ (loop_iteration cfg st ev).prints := by
  obtain ⟨llm, sl, nc, cf, ep, ec, ch, np⟩ := ev
  simp only at hllm hsel hconf hp hc hch
  subst hllm hsel hp hc hch
  simp only [loop_iteration, outer_try_body, inner_try_body, if_neg h1, if_neg h2,
    if_neg h3, hconf]
  by_cases hF : cfg.CTX = "False"
  · simp [hF, warn_line]
  · simp only [if_neg hF]
    by_cases hE : py_startswith_any ucmd TEXT_EDITORS
    · simp [hE, warn_line]
    · simp only [Bool.not_eq_true] at hE
      simp only [hE, Bool.false_eq_true, if_false]
      by_cases hC : py_startswith ucmd "cd"
      · simp [hC, warn_line]
      · simp only [Bool.not_eq_true] at hC
        simp [hC, warn_line]

/-- A non-context run configuration: CTX stays "False" and
confirmation is skipped. -/
def cfg_noctx : LoopConfig := ⟨"False", some "true", "/root"⟩

/-- A context-mode run configuration: CTX is "True" and confirmation
is skipped. -/
def cfg_ctx : LoopConfig := ⟨"True", some "true", "/root"⟩

/-- A loop state at the start of an iteration. -/
def st0 : LoopState := ⟨PromptVal.str "list files", []⟩

/-- A round in which every wait point succeeds: the LLM suggests "ls",
the user selects it, every execution succeeds and the next prompt is
the text "NEXT". -/
def ev_base : RoundEvents :=
  ⟨Except.ok ["ls"], Except.ok "ls", Except.ok "", Except.ok "ls",
   Except.ok (), Except.ok "", Except.ok (), Except.ok "NEXT"⟩

/-- The same round with every execution wait raising an Exception
subclass rendered as "boom" (for example
subprocess.CalledProcessError on a nonzero exit status). -/
def ev_err : RoundEvents :=
  { ev_base with
    exec_plain := Except.error (Exc.error "boom"),
    exec_captured := Except.error (Exc.error "boom"),
    chdir_res := Except.error (Exc.error "boom") }

/-- Witness for shell_error_reported: a concrete non-context round in
which the executed command fails with message "boom". -/
theorem shell_error_reported_witness :
    (loop_iteration cfg_noctx st0 ev_err).result = IterResult.next st0 ∧
    warn_line "boom" ∈ (loop_iteration cfg_noctx st0 ev_err).prints :=
  shell_error_reported cfg_noctx st0 ev_err ["ls"] "ls" "ls" "boom"
    rfl rfl (by decide) (by decide) (by decide) rfl rfl rfl rfl

/-- C3 (amended).  A KeyboardInterrupt arriving at the menu-selection
wait, at the new-command input, at the confirmation text box, or at
the context-mode next-prompt input is caught by the except clause of
lines 225-227: the iteration prints the exit notice and the process
terminates with exit status 0.  (The fourth wait point of the claim,
the LLM call of line 171, sits before the try statement of line 188
and is not covered; see the counterexample.) -/
theorem keyboard_interrupt_clean_exit (cfg : LoopConfig) (st : LoopState)
    (ev : RoundEvents) (sugg : List String)
    (hllm : ev.llm = Except.ok sugg)
    (h : ev.select = Except.error Exc.keyboardInterrupt
      ∨ (ev.select = Except.ok OPT_NEW_COMMAND ∧
         ev.new_command = Except.error Exc.keyboardInterrupt)
      ∨ (∃ sel, ev.select = Except.ok sel ∧
         sel ≠ OPT_DISMISS ∧ sel ≠ OPT_NEW_COMMAND ∧ sel ≠ OPT_GEN_SUGGESTIONS ∧
         cfg.SHAI_SKIP_CONFIRM ≠ some "true" ∧
         ev.confirm = Except.error Exc.keyboardInterrupt)
      ∨ (∃ sel ucmd out, ev.select = Except.ok sel ∧
         sel ≠ OPT_DISMISS ∧ sel ≠ OPT_NEW_COMMAND ∧ sel ≠ OPT_GEN_SUGGESTIONS ∧
         resolved_command cfg ev sel = Except.ok ucmd ∧
         cfg.CTX ≠ "False" ∧
         ev.exec_plain = Except.ok () ∧ ev.chdir_res = Except.ok () ∧
         ev.exec_captured = Except.ok out ∧
         ev.next_prompt = Except.error Exc.keyboardInterrupt)) :
    (loop_iteration cfg st ev).result = IterResult.halt 0 ∧
    "Exiting..." ∈ (loop_iteration cfg st ev).prints := by
  obtain ⟨llm, sl, nc, cf, ep, ec, ch, np⟩ := ev
  simp only at hllm h
  subst hllm
  rcases h with hsel | ⟨hsel, hnc⟩ | ⟨sel, hsel, h1, h2, h3, hskip, hcf⟩ |
    ⟨sel, ucmd, out, hsel, h1, h2, h3, hres, hF, hep, hch, hec, hnp⟩
  · subst hsel
    simp [loop_iteration, outer_try_body]
  · subst hsel hnc
    simp [loop_iteration, outer_try_body, inner_try_body, OPT_NEW_COMMAND,
      OPT_DISMISS]
  · subst hsel hcf
    simp only [loop_iteration, outer_try_body, inner_try_body, if_neg h1,
      if_neg h2, if_neg h3, resolved_command, if_pos hskip]
    simp
  · subst hsel hep hch hec hnp
    simp only [loop_iteration, outer_try_body, inner_try_body, if_neg h1,
      if_neg h2, if_neg h3, hres]
    simp only [if_neg hF]
    by_cases hE : py_startswith_any ucmd TEXT_EDITORS
    · simp [hE, read_next_prompt]
    · simp only [Bool.not_eq_true] at hE
      simp only [hE, Bool.false_eq_true, if_false]
      by_cases hC : py_startswith ucmd "cd"
      · simp [hC, read_next_prompt]
      · simp only [Bool.not_eq_true] at hC
        simp [hC, read_next_prompt]

/-- A round interrupted while waiting for the menu selection. -/
def ev_ki_menu : RoundEvents :=
  { ev_base with select := Except.error Exc.keyboardInterrupt }

/-- Witness for keyboard_interrupt_clean_exit: a concrete interrupt at
the menu-selection wait point exits cleanly with the notice. -/
theorem keyboard_interrupt_clean_exit_witness :
    (loop_iteration cfg_noctx st0 ev_ki_menu).result = IterResult.halt 0 ∧
    "Exiting..." ∈ (loop_iteration cfg_noctx st0 ev_ki_menu).prints :=
  keyboard_interrupt_clean_exit cfg_noctx st0 ev_ki_menu ["ls"] rfl (Or.inl rfl)

/-- A round interrupted while waiting for the LLM response. -/
def ev_ki_llm : RoundEvents :=
  { ev_base with llm := Except.error Exc.keyboardInterrupt }

/-- C3 (counterexample).  The claim fails at the LLM wait point: the
get_suggestions call of line 171 runs before the try statement of line
188, so a KeyboardInterrupt raised there escapes main uncaught — no
exit notice is printed and the process does not terminate with exit
status 0 (the Python runtime prints a traceback and exits
nonzero). -/
theorem llm_interrupt_not_clean :
    loop_iteration cfg_noctx st0 ev_ki_llm =
      ⟨[], [], IterResult.uncaught Exc.keyboardInterrupt⟩ ∧
    IterResult.uncaught Exc.keyboardInterrupt ≠ IterResult.halt 0 := by
  exact ⟨rfl, by decide⟩

/-- C4 (amended).  Whenever confirming or executing a command raises
an Exception-subclass error, the except clause of line 223 catches it
and prints the warning line; afterwards the while loop proceeds to its
next iteration with the state — including the prompt — exactly as it
was: in both modes no next free-text prompt is read on this error
path (line 222 was skipped by the exception), the loop regenerates
suggestions for the unchanged prompt, and in non-context mode it does
not terminate (the break of line 210 runs only after a successful
execution). -/
theorem caught_error_same_prompt (cfg : LoopConfig) (st : LoopState)
    (ev : RoundEvents) (sugg : List String) (sel m : String)
    (hllm : ev.llm = Except.ok sugg)
    (hsel : ev.select = Except.ok sel)
    (h1 : sel ≠ OPT_DISMISS) (h2 : sel ≠ OPT_NEW_COMMAND) (h3 : sel ≠ OPT_GEN_SUGGESTIONS)
    (h : resolved_command cfg ev sel = Except.error (Exc.error m)
      ∨ (∃ ucmd, resolved_command cfg ev sel = Except.ok ucmd ∧
         ev.exec_plain = Except.error (Exc.error m) ∧
         ev.exec_captured = Except.error (Exc.error m) ∧
         ev.chdir_res = Except.error (Exc.error m))) :
    (loop_iteration cfg st ev).result = IterResult.next st ∧
    warn_line m ∈ (loop_iteration cfg st ev).prints := by
  obtain ⟨llm, sl, nc, cf, ep, ec, ch, np⟩ := ev
  simp only at hllm hsel h
  subst hllm hsel
  rcases h with hres | ⟨ucmd, hres, hp, hc, hch⟩
  · simp only [loop_iteration, outer_try_body, inner_try_body, if_neg h1,
      if_neg h2, if_neg h3, hres]
    simp
  · subst hp hc hch
    simp only [loop_iteration, outer_try_body, inner_try_body, if_neg h1,
      if_neg h2, if_neg h3, hres]
    by_cases hF : cfg.CTX = "False"
    · simp [hF, warn_line]
    · simp only [if_neg hF]
      by_cases hE : py_startswith_any ucmd TEXT_EDITORS
      · simp [hE, warn_line]
      · simp only [Bool.not_eq_true] at hE
        simp only [hE, Bool.false_eq_true, if_false]
        by_cases hC : py_startswith ucmd "cd"
        · simp [hC, warn_line]
        · simp only [Bool.not_eq_true] at hC
          simp [hC, warn_line]

/-- Witness for caught_error_same_prompt: a concrete context-mode
round whose execution fails with message "boom". -/
theorem caught_error_same_prompt_witness :
    (loop_iteration cfg_ctx st0 ev_err).result = IterResult.next st0 ∧
    warn_line "boom" ∈ (loop_iteration cfg_ctx st0 ev_err).prints :=
  caught_error_same_prompt cfg_ctx st0 ev_err ["ls"] "ls" "boom"
    rfl rfl (by decide) (by decide) (by decide)
    (Or.inr ⟨"ls", rfl, rfl, rfl, rfl⟩)

/-- C4 (counterexample).  After a caught execution error the claim
fails in both directions: in non-context mode the loop does not
terminate (the iteration result is a continuation, not a break or an
exit), and in context mode the loop does not request the next
free-text prompt (the prompt stays "list files" even though the next
input would have been "NEXT"). -/
theorem caught_error_no_prompt_no_exit :
    (loop_iteration cfg_noctx st0 ev_err).result = IterResult.next st0 ∧
    IterResult.next st0 ≠ IterResult.brk ∧
    IterResult.next st0 ≠ IterResult.halt 0 ∧
    (loop_iteration cfg_ctx st0 ev_err).result = IterResult.next st0 ∧
    st0.prompt ≠ PromptVal.str "NEXT" := by
  exact ⟨rfl, by decide, by decide, rfl, by decide⟩

/-- A string starting with "cd" has character list 'c', 'd', tail. -/
theorem cd_shape (s : String) (h : py_startswith s "cd" = true) :
    ∃ t, s.data = 'c' :: 'd' :: t := by
  unfold py_startswith at h
  have hcd : "cd".data = ['c', 'd'] := rfl
  rw [hcd] at h
  cases hs : s.data with
  | nil => rw [hs] at h; simp [List.isPrefixOf] at h
  | cons a l =>
    rw [hs] at h
    cases l with
    | nil => simp [List.isPrefixOf] at h
    | cons b l2 =>
      simp [List.isPrefixOf] at h
      exact ⟨l2, by rw [← h.1, ← h.2]⟩

/-- No string starting with "cd" starts with a text-editor name: every
entry of TEXT_EDITORS begins with a character other than 'c', so in
context mode any command with the "cd" prefix reaches the cd branch of
line 214. -/
theorem cd_not_editor (s : String) (h : py_startswith s "cd" = true) :
    py_startswith_any s TEXT_EDITORS = false := by
  obtain ⟨t, ht⟩ := cd_shape s h
  unfold py_startswith_any TEXT_EDITORS py_startswith
  rw [ht]
  rfl

/-- C7 (amended).  In context mode, every confirmed command starting
with "cd" is handled locally: the only action of the iteration is a
process-level directory change (no shell execution), nothing is
printed, the context buffer is untouched, and the target path is the
space-split remainder of the command joined with '/' and
tilde-expanded — which for a single-word remainder such as in
"cd subdir" is exactly the remainder "subdir". -/
theorem cd_change_local (cfg : LoopConfig) (st : LoopState) (ev : RoundEvents)
    (sugg : List String) (sel ucmd p : String)
    (hllm : ev.llm = Except.ok sugg)
    (hsel : ev.select = Except.ok sel)
    (h1 : sel ≠ OPT_DISMISS) (h2 : sel ≠ OPT_NEW_COMMAND) (h3 : sel ≠ OPT_GEN_SUGGESTIONS)
    (hres : resolved_command cfg ev sel = Except.ok ucmd)
    (hF : cfg.CTX ≠ "False")
    (hcd : py_startswith ucmd "cd" = true)
    (hch : ev.chdir_res = Except.ok ())
    (hnp : ev.next_prompt = Except.ok p) :
    (loop_iteration cfg st ev).actions = [Action.chdirTo (cd_target cfg.home ucmd)] ∧
    (loop_iteration cfg st ev).prints = [] ∧
    (loop_iteration cfg st ev).result =
      IterResult.next ⟨PromptVal.str p, st.ctx_chunks⟩ ∧
    cd_target cfg.home "cd subdir" = "subdir" := by
  obtain ⟨llm, sl, nc, cf, ep, ec, ch, np⟩ := ev
  simp only at hllm hsel hres hch hnp
  subst hllm hsel hch hnp
  simp only [loop_iteration, outer_try_body, inner_try_body, if_neg h1,
    if_neg h2, if_neg h3, hres, if_neg hF, cd_not_editor ucmd hcd,
    Bool.false_eq_true, if_false, hcd, if_true, read_next_prompt]
  refine ⟨?_, ?_, ?_, ?_⟩ <;> first | rfl | trivial

/-- A context-mode round in which the user confirms the command
"cd subdir". -/
def ev_cd_sub : RoundEvents :=
  { ev_base with select := Except.ok "cd subdir", confirm := Except.ok "cd subdir" }

/-- Witness for cd_change_local: the round confirming "cd subdir"
changes directory to "subdir" without shell execution or context
update. -/
theorem cd_change_local_witness :
    (loop_iteration cfg_ctx st0 ev_cd_sub).actions =
      [Action.chdirTo (cd_target cfg_ctx.home "cd subdir")] ∧
    (loop_iteration cfg_ctx st0 ev_cd_sub).prints = [] ∧
    (loop_iteration cfg_ctx st0 ev_cd_sub).result =
      IterResult.next ⟨PromptVal.str "NEXT", st0.ctx_chunks⟩ ∧
    cd_target cfg_ctx.home "cd subdir" = "subdir" :=
  cd_change_local cfg_ctx st0 ev_cd_sub ["ls"] "cd subdir" "cd subdir" "NEXT"
    rfl rfl (by decide) (by decide) (by decide) rfl (by decide) (by decide) rfl rfl

/-- A context-mode round in which the user confirms "cd my dir". -/
def ev_cd_multi : RoundEvents :=
  { ev_base with select := Except.ok "cd my dir", confirm := Except.ok "cd my dir" }

/-- C7 (counterexample).  The claim that the target path equals the
remainder of the command line after "cd" is false for multi-word
remainders: confirming "cd my dir" passes "my/dir" to os.chdir — the
space-split words are joined with '/' — not the remainder "my dir". -/
theorem cd_multiword_not_remainder :
    (loop_iteration cfg_ctx st0 ev_cd_multi).actions = [Action.chdirTo "my/dir"] ∧
    "my/dir" ≠ "my dir" := by
  exact ⟨rfl, by decide⟩

/-- C9.  In context mode, every confirmed command whose text begins
with the two characters "cd" — including non-changes such as
"cdrecord file.iso" — is treated as a directory change: the only
action of the iteration is the chdir, no shell execution of any kind
happens, and the path handed to os.chdir is the tilde-expansion of the
remaining space-separated words joined with '/': "cd my dir" targets
"my/dir" and bare "cd" targets the empty string. -/
theorem cd_prefix_always_chdir (cfg : LoopConfig) (st : LoopState) (ev : RoundEvents)
    (sugg : List String) (sel ucmd p : String)
    (hllm : ev.llm = Except.ok sugg)
    (hsel : ev.select = Except.ok sel)
    (h1 : sel ≠ OPT_DISMISS) (h2 : sel ≠ OPT_NEW_COMMAND) (h3 : sel ≠ OPT_GEN_SUGGESTIONS)
    (hres : resolved_command cfg ev sel = Except.ok ucmd)
    (hF : cfg.CTX ≠ "False")
    (hcd : py_startswith ucmd "cd" = true)
    (hch : ev.chdir_res = Except.ok ())
    (hnp : ev.next_prompt = Except.ok p) :
    (loop_iteration cfg st ev).actions =
      [Action.chdirTo (expanduser cfg.home (py_join "/" ((py_split_space ucmd).drop 1)))] ∧
    (∀ c, Action.runShell c ∉ (loop_iteration cfg st ev).actions) ∧
    (∀ c, Action.runShellCaptured c ∉ (loop_iteration cfg st ev).actions) ∧
    py_startswith "cdrecord file.iso" "cd" = true ∧
    cd_target cfg.home "cd my dir" = "my/dir" ∧
    cd_target cfg.home "cd" = "" := by
  obtain ⟨llm, sl, nc, cf, ep, ec, ch, np⟩ := ev
  simp only at hllm hsel hres hch hnp
  subst hllm hsel hch hnp
  simp only [loop_iteration, outer_try_body, inner_try_body, if_neg h1,
    if_neg h2, if_neg h3, hres, if_neg hF, cd_not_editor ucmd hcd,
    Bool.false_eq_true, if_false, hcd, if_true, read_next_prompt]
  refine ⟨?_, ?_, ?_, ?_, ?_, ?_⟩
  · rfl
  · intro c
    simp [cd_target]
  · intro c
    simp [cd_target]
  · rfl
  · rfl
  · rfl

/-- A context-mode round in which the user confirms
"cdrecord file.iso". -/
def ev_cdrecord : RoundEvents :=
  { ev_base with
    select := Except.ok "cdrecord file.iso",
    confirm := Except.ok "cdrecord file.iso" }

/-- Witness for cd_prefix_always_chdir: "cdrecord file.iso" is not
shell-executed; the process tries to change directory to
"file.iso". -/
theorem cd_prefix_always_chdir_witness :
    (loop_iteration cfg_ctx st0 ev_cdrecord).actions =
      [Action.chdirTo (expanduser cfg_ctx.home
        (py_join "/" ((py_split_space "cdrecord file.iso").drop 1)))] ∧
    (∀ c, Action.runShell c ∉ (loop_iteration cfg_ctx st0 ev_cdrecord).actions) ∧
    (∀ c, Action.runShellCaptured c ∉ (loop_iteration cfg_ctx st0 ev_cdrecord).actions) ∧
    py_startswith "cdrecord file.iso" "cd" = true ∧
    cd_target cfg_ctx.home "cd my dir" = "my/dir" ∧
    cd_target cfg_ctx.home "cd" = "" :=
  cd_prefix_always_chdir cfg_ctx st0 ev_cdrecord ["ls"]
    "cdrecord file.iso" "cdrecord file.iso" "NEXT"
    rfl rfl (by decide) (by decide) (by decide) rfl (by decide) (by decide) rfl rfl

/-- C10.  In context mode, every confirmed command whose text begins
with one of the TEXT_EDITORS strings as a plain prefix — which indeed
also matches non-editors such as "view x" (prefix "vi") and
"editcap x" (prefix "ed") — is executed by the uncaptured
subprocess.run of line 213, and the execution leaves the context
buffer unchanged: no chunk is added, and the iteration continues with
the next prompt and the old chunks. -/
theorem editor_no_capture (cfg : LoopConfig) (st : LoopState) (ev : RoundEvents)
    (sugg : List String) (sel ucmd p : String)
    (hllm : ev.llm = Except.ok sugg)
    (hsel : ev.select = Except.ok sel)
    (h1 : sel ≠ OPT_DISMISS) (h2 : sel ≠ OPT_NEW_COMMAND) (h3 : sel ≠ OPT_GEN_SUGGESTIONS)
    (hres : resolved_command cfg ev sel = Except.ok ucmd)
    (hF : cfg.CTX ≠ "False")
    (hed : py_startswith_any ucmd TEXT_EDITORS = true)
    (hexec : ev.exec_plain = Except.ok ())
    (hnp : ev.next_prompt = Except.ok p) :
    (loop_iteration cfg st ev).actions = [Action.runShell ucmd] ∧
    (loop_iteration cfg st ev).result =
      IterResult.next ⟨PromptVal.str p, st.ctx_chunks⟩ ∧
    py_startswith_any "view x" TEXT_EDITORS = true ∧
    py_startswith_any "editcap x" TEXT_EDITORS = true := by
  obtain ⟨llm, sl, nc, cf, ep, ec, ch, np⟩ := ev
  simp only at hllm hsel hres hexec hnp
  subst hllm hsel hexec hnp
  simp only [loop_iteration, outer_try_body, inner_try_body, if_neg h1,
    if_neg h2, if_neg h3, hres, if_neg hF, hed, if_true, read_next_prompt]
  refine ⟨?_, ?_, ?_, ?_⟩
  · first | rfl | trivial
  · first | rfl | trivial
  · decide
  · decide

/-- A context-mode round in which the user confirms "view x". -/
def ev_view : RoundEvents :=
  { ev_base with select := Except.ok "view x", confirm := Except.ok "view x" }

/-- Witness for editor_no_capture: the non-editor command "view x"
matches the "vi" prefix, runs uncaptured, and the context buffer keeps
its old chunks. -/
theorem editor_no_capture_witness :
    (loop_iteration cfg_ctx st0 ev_view).actions = [Action.runShell "view x"] ∧
    (loop_iteration cfg_ctx st0 ev_view).result =
      IterResult.next ⟨PromptVal.str "NEXT", st0.ctx_chunks⟩ ∧
    py_startswith_any "view x" TEXT_EDITORS = true ∧
    py_startswith_any "editcap x" TEXT_EDITORS = true :=
  editor_no_capture cfg_ctx st0 ev_view ["ls"] "view x" "view x" "NEXT"
    rfl rfl (by decide) (by decide) (by decide) rfl (by decide) (by decide) rfl rfl

/-- C8 (amended).  With a leading --ctx flag, context mode is forced
on and the prompt becomes the raw list of the remaining arguments (it
is not joined into one string; line 76 assigns args.prompt unjoined);
without the flag, the prompt is every argument after the program name
joined with spaces and the context-mode string keeps its environment
value. -/
theorem invocation_modes (envCTX : String) (rest argv : List String)
    (h : argv.head? ≠ some "--ctx") :
    parse_invocation envCTX ("--ctx" :: rest) = (PromptVal.list rest, "True") ∧
    parse_invocation envCTX argv = (PromptVal.str (py_join " " argv), envCTX) := by
  constructor
  · rfl
  · cases argv with
    | nil => rfl
    | cons a t =>
      unfold parse_invocation
      split
      · next heq =>
        injection heq with ha _
        exact absurd (by rw [List.head?, ha]) h
      · rfl

/-- Witness for invocation_modes: without --ctx, the arguments
"do it" are space-joined and context mode keeps the environment value
"False". -/
theorem invocation_modes_witness :
    parse_invocation "False" ["do", "it"] =
      (PromptVal.str (py_join " " ["do", "it"]), "False") :=
  (invocation_modes "False" [] ["do", "it"] (by decide)).2

/-- C8 (counterexample).  The claim that with --ctx the task text
equals the remaining arguments joined into one string is false: for
the invocation --ctx list files, the prompt value is the Python list
of the two remaining arguments, not the joined string "list
files". -/
theorem ctx_prompt_not_joined :
    parse_invocation "False" ["--ctx", "list", "files"] =
      (PromptVal.list ["list", "files"], "True") ∧
    (parse_invocation "False" ["--ctx", "list", "files"]).1 ≠
      PromptVal.str "list files" := by
  exact ⟨rfl, by decide⟩

end ShellAI
